import Mathlib

/-!
Shallow embedding of the recovery subsystem of `ai_job_agent`
(`src/recovery/retry_logic.py` and `src/recovery/state_manager.py`).

Python machine floats are modelled as exact rationals (`ℚ`): the delay
formulas in `_calculate_delay` are products, powers and `min`, and the
claims under verification are about those formulas, not about rounding.
Wall-clock instants (`time.time()`) are likewise modelled as rationals.
Python exceptions are modelled by an abstract error type `E` together
with the two classification predicates held by the configuration
(`isinstance(e, retryable_exceptions)` / `isinstance(e, non_retryable_exceptions)`).
Note that for an empty `non_retryable_exceptions` tuple the Python guard
`if self.config.non_retryable_exceptions and isinstance(...)` short-circuits
to `False`, which coincides with the constantly-false predicate, so a plain
predicate is a faithful model of the tuple.
-/

/-- `RetryStrategy` enum from `retry_logic.py`. -/
inductive RetryStrategy where
| exponential_backoff
| linear_backoff
| fixed_delay
| fibonacci_backoff
deriving DecidableEq

/-- `RetryConfig` dataclass from `retry_logic.py`; `E` is the type of
errors the wrapped operation can raise. -/
structure RetryConfig (E : Type) where
  max_attempts : Nat
  base_delay : ℚ
  max_delay : ℚ
  exponential_factor : ℚ
  jitter : Bool
  jitter_factor : ℚ
  strategy : RetryStrategy
  retryable_exceptions : E → Bool
  non_retryable_exceptions : E → Bool

/-- Mathematical Fibonacci sequence with the indexing used by
`_generate_fibonacci_sequence` (`fib 0 = fib 1 = 1`, `fib 2 = 2`). -/
def fib : Nat → Nat
| 0 => 1
| 1 => 1
| n + 2 => fib (n + 1) + fib n

/-- The `for i in range(2, n): sequence.append(sequence[i-1] + sequence[i-2])`
loop of `RetryHandler._generate_fibonacci_sequence`; `fuel` is the number
of iterations left (`n - i` for the current loop index `i`). -/
def fibLoop : Nat → Nat → List Nat → List Nat
| 0, _, seq => seq
| fuel + 1, i, seq => fibLoop fuel (i + 1) (seq ++ [seq.getD (i - 1) 0 + seq.getD (i - 2) 0])

/-- `RetryHandler._generate_fibonacci_sequence`: `[]` for `n ≤ 0`,
`[1]` for `n = 1`, otherwise the `range(2, n)` loop (which runs `n - 2`
times) starting from `[1, 1]`. -/
def generate_fibonacci_sequence (n : Nat) : List Nat :=
  if n = 0 then []
  else if n = 1 then [1]
  else fibLoop (n - 2) 2 [1, 1]

/-- The strategy delay of `RetryHandler._calculate_delay` before jitter:
per-strategy formula, then `delay = min(delay, max_delay)`.  The handler's
precomputed table is `_generate_fibonacci_sequence(max_attempts + 5)`. -/
def computed_delay (cfg : RetryConfig E) (attempt : Nat) : ℚ :=
  let fibseq := generate_fibonacci_sequence (cfg.max_attempts + 5)
  let delay : ℚ :=
    match cfg.strategy with
    | .exponential_backoff => cfg.base_delay * cfg.exponential_factor ^ attempt
    | .linear_backoff => cfg.base_delay * ((attempt : ℚ) + 1)
    | .fixed_delay => cfg.base_delay
    | .fibonacci_backoff =>
        if attempt < fibseq.length then cfg.base_delay * (fibseq.getD attempt 0 : ℚ)
        else cfg.base_delay * cfg.exponential_factor ^ attempt
  min delay cfg.max_delay

/-- `RetryHandler._calculate_delay`; `r` is the sample returned by
`random.random()` (a value in `[0, 1)`).  If jitter is enabled the code
adds `delay * jitter_factor * r` to the clamped delay. -/
def calculate_delay (cfg : RetryConfig E) (attempt : Nat) (r : ℚ) : ℚ :=
  let delay := computed_delay cfg attempt
  if cfg.jitter then delay + delay * cfg.jitter_factor * r else delay

/-- `RetryHandler._should_retry`. -/
def should_retry (cfg : RetryConfig E) (e : E) (attempt : Nat) : Bool :=
  if cfg.max_attempts ≤ attempt then false
  else if cfg.non_retryable_exceptions e then false
  else cfg.retryable_exceptions e

/-- Terminal outcome of `RetryHandler.execute_with_retry`: the returned
value, the raised `NonRetryableError` (which wraps its cause), or the
raised `RetryExhaustedError` (which carries `attempts` and
`last_exception`; the latter is `None` only when the attempt loop never
ran). -/
inductive RetryOutcome (E α : Type) where
| ok (v : α)
| nonRetryableErr (cause : E)
| retryExhausted (attempts : Nat) (last : Option E)
deriving DecidableEq

/-- Observable trace of one `execute_with_retry` run: the outcome, how
many times `time.sleep` ran, and how many times the wrapped operation
was invoked. -/
structure RetryTrace (E α : Type) where
  outcome : RetryOutcome E α
  sleeps : Nat
  calls : Nat
deriving DecidableEq

/-- The `for attempt in range(self.config.max_attempts)` loop of
`RetryHandler.execute_with_retry`.  `fuel` is the number of loop
iterations still to run (`max_attempts - attempt`); when it reaches `0`
the loop exits and line 193 raises
`RetryExhaustedError(max_attempts, last_exception)`.  The wrapped
operation is modelled as `op : Nat → Except E α` giving the result of
the invocation at each (0-indexed) attempt. -/
def retryGo (cfg : RetryConfig E) (op : Nat → Except E α) :
    Nat → Nat → Nat → Nat → Option E → RetryTrace E α
| 0, _, sleeps, calls, last => ⟨.retryExhausted cfg.max_attempts last, sleeps, calls⟩
| fuel + 1, attempt, sleeps, calls, _ =>
  match op attempt with
  | .ok v => ⟨.ok v, sleeps, calls + 1⟩
  | .error e =>
    if should_retry cfg e attempt then
      if attempt < cfg.max_attempts - 1 then
        retryGo cfg op fuel (attempt + 1) (sleeps + 1) (calls + 1) (some e)
      else
        retryGo cfg op fuel (attempt + 1) sleeps (calls + 1) (some e)
    else if cfg.non_retryable_exceptions e then
      ⟨.nonRetryableErr e, sleeps, calls + 1⟩
    else
      ⟨.retryExhausted (attempt + 1) (some e), sleeps, calls + 1⟩

/-- `RetryHandler.execute_with_retry`. -/
def execute_with_retry (cfg : RetryConfig E) (op : Nat → Except E α) : RetryTrace E α :=
  retryGo cfg op cfg.max_attempts 0 0 0 none

example : execute_with_retry
    (⟨3, 1, 60, 2, false, 0, .exponential_backoff, fun _ => true, fun _ => false⟩ : RetryConfig Nat)
    (fun a => (.error a : Except Nat Nat)) = ⟨.retryExhausted 3 (some 2), 2, 3⟩ := by decide

example : execute_with_retry
    (⟨3, 1, 60, 2, false, 0, .exponential_backoff, fun _ => true, fun _ => true⟩ : RetryConfig Nat)
    (fun a => (.error a : Except Nat Nat)) = ⟨.nonRetryableErr 0, 0, 1⟩ := by decide

example : execute_with_retry
    (⟨3, 1, 60, 2, false, 0, .exponential_backoff, fun _ => true, fun _ => false⟩ : RetryConfig Nat)
    (fun a => if a = 2 then .ok 99 else (.error a : Except Nat Nat)) = ⟨.ok 99, 2, 3⟩ := by
  decide

example : generate_fibonacci_sequence 8 = [1, 1, 2, 3, 5, 8, 13, 21] := by decide

theorem range_map_fib_getD (m j : Nat) (h : j < m) :
    ((List.range m).map fib).getD j 0 = fib j := by
  rw [List.getD_eq_getElem?_getD, List.getElem?_map, List.getElem?_range h]
  rfl

theorem fibLoop_spec : ∀ fuel i : Nat, 2 ≤ i →
    fibLoop fuel i ((List.range i).map fib) = (List.range (i + fuel)).map fib := by
  intro fuel
  induction fuel with
  | zero => intro i h2; simp [fibLoop]
  | succ fuel ih =>
    intro i h2
    have hkey : (List.range i).map fib ++
        [((List.range i).map fib).getD (i - 1) 0 + ((List.range i).map fib).getD (i - 2) 0] =
        (List.range (i + 1)).map fib := by
      rw [range_map_fib_getD i (i - 1) (by omega), range_map_fib_getD i (i - 2) (by omega)]
      obtain ⟨k, rfl⟩ : ∃ k, i = k + 2 := ⟨i - 2, by omega⟩
      have hfib : fib (k + 2 - 1) + fib (k + 2 - 2) = fib (k + 2) := rfl
      rw [hfib]
      conv_rhs => rw [List.range_succ, List.map_append]
      simp
    rw [fibLoop, hkey, ih (i + 1) (by omega)]
    have harith : i + 1 + fuel = i + (fuel + 1) := by omega
    rw [harith]

theorem generate_fibonacci_sequence_spec (n : Nat) :
    generate_fibonacci_sequence n = (List.range n).map fib := by
  unfold generate_fibonacci_sequence
  rcases Nat.lt_or_ge n 2 with h | h
  · interval_cases n <;> rfl
  · rw [if_neg (by omega), if_neg (by omega)]
    have h2 : ([1, 1] : List Nat) = (List.range 2).map fib := rfl
    rw [h2, fibLoop_spec (n - 2) 2 (by omega), show 2 + (n - 2) = n from by omega]

theorem generate_fibonacci_sequence_length (n : Nat) :
    (generate_fibonacci_sequence n).length = n := by
  rw [generate_fibonacci_sequence_spec]; simp

theorem generate_fibonacci_sequence_getD (n j : Nat) (h : j < n) :
    (generate_fibonacci_sequence n).getD j 0 = fib j := by
  rw [generate_fibonacci_sequence_spec]; exact range_map_fib_getD n j h

/-- C5: for every policy with jitter disabled and every 0-indexed attempt
`a`, `_calculate_delay` is deterministic (independent of the random
sample `r`) and equals the configured strategy's formula clamped to
`max_delay`: exponential gives `base_delay * exponential_factor ^ a`,
linear gives `base_delay * (a + 1)`, fixed gives `base_delay`, and
fibonacci gives `base_delay * fib a` (with `fib 0 = fib 1 = 1`,
`fib 2 = 2`) for `a` inside the precomputed table of length
`max_attempts + 5`, falling back to the exponential formula beyond it;
in particular for fibonacci, `delay 0 = delay 1 = base_delay` and
`delay 2 = 2 * base_delay` when `max_delay` is not binding. -/
theorem calculate_delay_formula (cfg : RetryConfig E) (a : Nat) (r : ℚ)
    (hj : cfg.jitter = false) :
    (cfg.strategy = RetryStrategy.exponential_backoff →
      calculate_delay cfg a r = min (cfg.base_delay * cfg.exponential_factor ^ a) cfg.max_delay)
  ∧ (cfg.strategy = RetryStrategy.linear_backoff →
      calculate_delay cfg a r = min (cfg.base_delay * ((a : ℚ) + 1)) cfg.max_delay)
  ∧ (cfg.strategy = RetryStrategy.fixed_delay →
      calculate_delay cfg a r = min cfg.base_delay cfg.max_delay)
  ∧ (cfg.strategy = RetryStrategy.fibonacci_backoff →
      calculate_delay cfg a r =
        min (if a < cfg.max_attempts + 5 then cfg.base_delay * (fib a : ℚ)
          else cfg.base_delay * cfg.exponential_factor ^ a) cfg.max_delay)
  ∧ (cfg.strategy = RetryStrategy.fibonacci_backoff → cfg.base_delay ≤ cfg.max_delay →
      calculate_delay cfg 0 r = cfg.base_delay ∧ calculate_delay cfg 1 r = cfg.base_delay)
  ∧ (cfg.strategy = RetryStrategy.fibonacci_backoff → 2 * cfg.base_delay ≤ cfg.max_delay →
      calculate_delay cfg 2 r = 2 * cfg.base_delay) := by
  have hfibd : cfg.strategy = RetryStrategy.fibonacci_backoff → ∀ b : Nat, b < cfg.max_attempts + 5 →
      calculate_delay cfg b r = min (cfg.base_delay * (fib b : ℚ)) cfg.max_delay := by
    intro hs b hb
    simp only [calculate_delay, computed_delay, hj, hs, if_false, Bool.false_eq_true,
      generate_fibonacci_sequence_length]
    rw [if_pos hb, generate_fibonacci_sequence_getD _ b hb]
  refine ⟨?_, ?_, ?_, ?_, ?_, ?_⟩
  · intro hs
    simp only [calculate_delay, computed_delay, hj, hs, Bool.false_eq_true, if_false]
  · intro hs
    simp only [calculate_delay, computed_delay, hj, hs, Bool.false_eq_true, if_false]
  · intro hs
    simp only [calculate_delay, computed_delay, hj, hs, Bool.false_eq_true, if_false]
  · intro hs
    simp only [calculate_delay, computed_delay, hj, hs, Bool.false_eq_true, if_false,
      generate_fibonacci_sequence_length]
    by_cases hb : a < cfg.max_attempts + 5
    · rw [if_pos hb, if_pos hb, generate_fibonacci_sequence_getD _ a hb]
    · rw [if_neg hb, if_neg hb]
  · intro hs hmax
    constructor
    · rw [hfibd hs 0 (by omega), show (fib 0 : ℚ) = 1 from rfl, mul_one]
      exact min_eq_left hmax
    · rw [hfibd hs 1 (by omega), show (fib 1 : ℚ) = 1 from rfl, mul_one]
      exact min_eq_left hmax
  · intro hs hmax
    rw [hfibd hs 2 (by omega)]
    have h2 : (fib 2 : ℚ) = 2 := by norm_num [fib]
    rw [h2, mul_comm]
    exact min_eq_left hmax

def cfgC5 : RetryConfig Unit :=
  ⟨3, 1, 60, 2, false, 1/10, .fibonacci_backoff, fun _ => true, fun _ => false⟩

/-- Witness for C5 at a concrete fibonacci-strategy configuration. -/
theorem calculate_delay_formula_witness :
    (calculate_delay cfgC5 2 0 =
      min (if 2 < cfgC5.max_attempts + 5 then cfgC5.base_delay * (fib 2 : ℚ)
        else cfgC5.base_delay * cfgC5.exponential_factor ^ 2) cfgC5.max_delay)
  ∧ calculate_delay cfgC5 0 0 = cfgC5.base_delay
  ∧ calculate_delay cfgC5 1 0 = cfgC5.base_delay
  ∧ calculate_delay cfgC5 2 0 = 2 * cfgC5.base_delay := by
  refine ⟨(calculate_delay_formula cfgC5 2 0 rfl).2.2.2.1 rfl,
    ((calculate_delay_formula cfgC5 0 0 rfl).2.2.2.2.1 rfl (by norm_num [cfgC5])).1,
    ((calculate_delay_formula cfgC5 1 0 rfl).2.2.2.2.1 rfl (by norm_num [cfgC5])).2,
    (calculate_delay_formula cfgC5 2 0 rfl).2.2.2.2.2 rfl (by norm_num [cfgC5])⟩

def cfgC6cex : RetryConfig Unit :=
  ⟨3, 1, 60, 2, true, 0, .fixed_delay, fun _ => true, fun _ => false⟩

/-- C6 counterexample: for the policy `cfgC6cex` (jitter enabled with
`jitter_factor = 0`) and the valid random sample `r = 0`, the returned
delay equals the computed (clamped) delay plus the jitter term, but it
does NOT lie in the half-open interval
`[computed, computed * (1 + jitter_factor))` claimed, because that
interval is empty when `computed * jitter_factor = 0`. -/
theorem calculate_delay_jitter_cex :
    (0 : ℚ) ≤ 0 ∧ (0 : ℚ) < 1
  ∧ calculate_delay cfgC6cex 0 0 =
      computed_delay cfgC6cex 0 + computed_delay cfgC6cex 0 * cfgC6cex.jitter_factor * 0
  ∧ ¬ calculate_delay cfgC6cex 0 0 <
      computed_delay cfgC6cex 0 * (1 + cfgC6cex.jitter_factor) := by
  refine ⟨le_refl 0, by norm_num, ?_, ?_⟩ <;>
    norm_num [calculate_delay, computed_delay, cfgC6cex]

/-- C6 (amended): with jitter enabled and a random sample `r ∈ [0, 1)`,
the returned delay equals `computed + computed * jitter_factor * r`
where `computed` is the strategy delay already clamped to `max_delay`;
whenever `computed` and `jitter_factor` are non-negative the jitter term
is non-negative and the delay lies in the closed interval
`[computed, computed * (1 + jitter_factor)]`, and the upper bound is
strict (yielding the claimed half-open interval) whenever
`computed * jitter_factor > 0`. -/
theorem calculate_delay_jitter_bounds (cfg : RetryConfig E) (a : Nat) (r : ℚ)
    (hj : cfg.jitter = true) (hr0 : 0 ≤ r) (hr1 : r < 1)
    (hc : 0 ≤ computed_delay cfg a) (hf : 0 ≤ cfg.jitter_factor) :
    calculate_delay cfg a r =
      computed_delay cfg a + computed_delay cfg a * cfg.jitter_factor * r
  ∧ 0 ≤ computed_delay cfg a * cfg.jitter_factor * r
  ∧ computed_delay cfg a ≤ calculate_delay cfg a r
  ∧ calculate_delay cfg a r ≤ computed_delay cfg a * (1 + cfg.jitter_factor)
  ∧ (0 < computed_delay cfg a * cfg.jitter_factor →
      calculate_delay cfg a r < computed_delay cfg a * (1 + cfg.jitter_factor)) := by
  have he : calculate_delay cfg a r =
      computed_delay cfg a + computed_delay cfg a * cfg.jitter_factor * r := by
    simp [calculate_delay, hj]
  have hcf : 0 ≤ computed_delay cfg a * cfg.jitter_factor := mul_nonneg hc hf
  have hterm : 0 ≤ computed_delay cfg a * cfg.jitter_factor * r := mul_nonneg hcf hr0
  refine ⟨he, hterm, ?_, ?_, ?_⟩
  · rw [he]; linarith
  · rw [he]; nlinarith
  · intro hpos; rw [he]; nlinarith

def cfgC6 : RetryConfig Unit :=
  ⟨3, 1, 60, 2, true, 1/10, .fixed_delay, fun _ => true, fun _ => false⟩

/-- Witness for the amended C6 at a concrete configuration with positive
base delay and jitter factor, sample `r = 1/2`. -/
theorem calculate_delay_jitter_bounds_witness :
    calculate_delay cfgC6 0 (1/2) =
      computed_delay cfgC6 0 + computed_delay cfgC6 0 * cfgC6.jitter_factor * (1/2)
  ∧ computed_delay cfgC6 0 ≤ calculate_delay cfgC6 0 (1/2)
  ∧ calculate_delay cfgC6 0 (1/2) < computed_delay cfgC6 0 * (1 + cfgC6.jitter_factor) := by
  have h := calculate_delay_jitter_bounds cfgC6 0 (1/2) rfl (by norm_num) (by norm_num)
    (by norm_num [computed_delay, cfgC6]) (by norm_num [cfgC6])
  exact ⟨h.1, h.2.2.1, h.2.2.2.2 (by norm_num [computed_delay, cfgC6])⟩

theorem retryGo_allfail (cfg : RetryConfig E) (op : Nat → Except E α) (errs : Nat → E)
    (hop : ∀ i, i < cfg.max_attempts → op i = Except.error (errs i))
    (hret : ∀ i, i < cfg.max_attempts → cfg.retryable_exceptions (errs i) = true)
    (hnon : ∀ i, i < cfg.max_attempts → cfg.non_retryable_exceptions (errs i) = false) :
    ∀ fuel attempt sleeps calls last, fuel + attempt = cfg.max_attempts → 1 ≤ fuel →
      retryGo cfg op fuel attempt sleeps calls last =
        ⟨.retryExhausted cfg.max_attempts (some (errs (cfg.max_attempts - 1))),
         sleeps + (fuel - 1), calls + fuel⟩ := by
  intro fuel
  induction fuel with
  | zero => intro attempt sleeps calls last h h1; exact absurd h1 (by omega)
  | succ fuel ih =>
    intro attempt sleeps calls last h h1
    have hat : attempt < cfg.max_attempts := by omega
    have hsr : should_retry cfg (errs attempt) attempt = true := by
      simp [should_retry, hret attempt hat, hnon attempt hat, Nat.not_le.mpr hat]
    simp only [retryGo, hop attempt hat, hsr, if_true]
    rcases Nat.eq_zero_or_pos fuel with hf | hf
    · subst hf
      have ha : attempt = cfg.max_attempts - 1 := by omega
      subst ha
      rw [if_neg (by omega : ¬ cfg.max_attempts - 1 < cfg.max_attempts - 1)]
      simp only [retryGo]
      congr 1
    · rw [if_pos (by omega : attempt < cfg.max_attempts - 1),
        ih (attempt + 1) (sleeps + 1) (calls + 1) (some (errs attempt)) (by omega) (by omega)]
      congr 1 <;> omega

/-- C1: for every retry policy whose retryable classification matches
every raised error (and whose non-retryable classification matches
none of them) with `max_attempts = N ≥ 1`, if the wrapped operation
fails on every attempt then `execute_with_retry` sleeps exactly `N - 1`
times (one sleep after each non-final failed attempt, none after the
last), invokes the operation `N` times, and raises `RetryExhaustedError`
with `attempts = N` carrying the last error raised by the operation. -/
theorem execute_with_retry_allfail (cfg : RetryConfig E) (op : Nat → Except E α) (errs : Nat → E)
    (hN : 1 ≤ cfg.max_attempts)
    (hop : ∀ i, i < cfg.max_attempts → op i = Except.error (errs i))
    (hret : ∀ i, i < cfg.max_attempts → cfg.retryable_exceptions (errs i) = true)
    (hnon : ∀ i, i < cfg.max_attempts → cfg.non_retryable_exceptions (errs i) = false) :
    execute_with_retry cfg op =
      ⟨.retryExhausted cfg.max_attempts (some (errs (cfg.max_attempts - 1))),
       cfg.max_attempts - 1, cfg.max_attempts⟩ := by
  unfold execute_with_retry
  rw [retryGo_allfail cfg op errs hop hret hnon cfg.max_attempts 0 0 0 none (by omega) hN]
  congr 1 <;> omega

def cfgC1 : RetryConfig Nat :=
  ⟨3, 1, 60, 2, false, 0, .exponential_backoff, fun _ => true, fun _ => false⟩

/-- Witness for C1 with `max_attempts = 3` and an operation failing with
error `a` at attempt `a`: 2 sleeps, 3 calls, `RetryExhaustedError(3, 2)`. -/
theorem execute_with_retry_allfail_witness :
    execute_with_retry cfgC1 (fun a => (Except.error a : Except Nat Nat)) =
      ⟨.retryExhausted 3 (some 2), 2, 3⟩ :=
  execute_with_retry_allfail cfgC1 (fun a => (Except.error a : Except Nat Nat)) (fun i => i)
    (by decide) (fun _ _ => rfl) (fun _ _ => rfl) (fun _ _ => rfl)

theorem retryGo_nonretryable (cfg : RetryConfig E) (op : Nat → Except E α) (errs : Nat → E)
    (a : Nat) (e : E) (ha : a < cfg.max_attempts)
    (hop : ∀ i, i < a → op i = Except.error (errs i))
    (hret : ∀ i, i < a → cfg.retryable_exceptions (errs i) = true)
    (hnon : ∀ i, i < a → cfg.non_retryable_exceptions (errs i) = false)
    (hopa : op a = Except.error e) (he : cfg.non_retryable_exceptions e = true) :
    ∀ j attempt sleeps calls last, attempt + j = a → attempt + (a - attempt) = a →
      (cfg.max_attempts - attempt) + attempt = cfg.max_attempts →
      ∀ fuel, fuel + attempt = cfg.max_attempts →
      retryGo cfg op fuel attempt sleeps calls last =
        ⟨.nonRetryableErr e, sleeps + j, calls + j + 1⟩ := by
  intro j
  induction j with
  | zero =>
    intro attempt sleeps calls last hj _ _ fuel hfuel
    have haeq : attempt = a := by omega
    subst haeq
    rcases fuel with _ | fuel
    · exact absurd hfuel (by omega)
    · have hsr : should_retry cfg e attempt = false := by
        simp [should_retry, he, Nat.not_le.mpr ha]
      simp only [retryGo, hopa, hsr, he, if_true, Bool.false_eq_true, if_false]
      congr 1
  | succ j ih =>
    intro attempt sleeps calls last hj _ _ fuel hfuel
    have hat : attempt < a := by omega
    have hatm : attempt < cfg.max_attempts := by omega
    rcases fuel with _ | fuel
    · exact absurd hfuel (by omega)
    · have hsr : should_retry cfg (errs attempt) attempt = true := by
        simp [should_retry, hret attempt hat, hnon attempt hat, Nat.not_le.mpr hatm]
      simp only [retryGo, hop attempt hat, hsr, if_true]
      rw [if_pos (by omega : attempt < cfg.max_attempts - 1),
        ih (attempt + 1) (sleeps + 1) (calls + 1) (some (errs attempt)) (by omega) (by omega)
          (by omega) fuel (by omega)]
      congr 1 <;> omega

/-- C4: if the errors raised during attempts `0, …, a-1` are classified
retryable (and not non-retryable) and the error raised at attempt `a`
matches `non_retryable_exceptions`, then `execute_with_retry` aborts
immediately — the operation is invoked exactly `a + 1` times
(`attempts_made = attempt + 1`), no sleep follows the non-retryable
error (in particular, zero sleeps when it occurs on the first attempt)
— and surfaces a `NonRetryableError` wrapping that error.  The theorem
places no constraint on `retryable_exceptions e`, so the non-retryable
classification takes precedence even when the same error also matches
`retryable_exceptions`. -/
theorem execute_with_retry_nonretryable (cfg : RetryConfig E) (op : Nat → Except E α)
    (errs : Nat → E) (a : Nat) (e : E) (ha : a < cfg.max_attempts)
    (hop : ∀ i, i < a → op i = Except.error (errs i))
    (hret : ∀ i, i < a → cfg.retryable_exceptions (errs i) = true)
    (hnon : ∀ i, i < a → cfg.non_retryable_exceptions (errs i) = false)
    (hopa : op a = Except.error e) (he : cfg.non_retryable_exceptions e = true) :
    execute_with_retry cfg op = ⟨.nonRetryableErr e, a, a + 1⟩ := by
  unfold execute_with_retry
  rw [retryGo_nonretryable cfg op errs a e ha hop hret hnon hopa he a 0 0 0 none (by omega)
    (by omega) (by omega) cfg.max_attempts (by omega)]
  congr 1 <;> omega

def cfgC4 : RetryConfig Nat :=
  ⟨3, 1, 60, 2, true, 1/10, .exponential_backoff, fun _ => true, fun _ => true⟩

/-- Witness for C4: an operation whose very first error matches both
classifications (`retryable_exceptions` and `non_retryable_exceptions`
are both constantly true) aborts with a `NonRetryableError` on the first
attempt: zero sleeps, one invocation. -/
theorem execute_with_retry_nonretryable_witness :
    execute_with_retry cfgC4 (fun a => (Except.error a : Except Nat Unit)) =
      ⟨.nonRetryableErr 0, 0, 1⟩ :=
  execute_with_retry_nonretryable cfgC4 (fun a => (Except.error a : Except Nat Unit))
    (fun i => i) 0 0 (by decide)
    (fun i h => absurd h (Nat.not_lt_zero i))
    (fun i h => absurd h (Nat.not_lt_zero i))
    (fun i h => absurd h (Nat.not_lt_zero i)) rfl rfl

/-- The three circuit states of `CircuitBreaker` (`'CLOSED'`, `'OPEN'`,
`'HALF_OPEN'` strings in the Python source). -/
inductive CBState where
| Closed
| Open
| HalfOpen
deriving DecidableEq

/-- Mutable fields and configuration of `CircuitBreaker`. -/
structure CircuitBreaker where
  failure_threshold : Nat
  recovery_timeout : ℚ
  failure_count : Nat
  last_failure_time : Option ℚ
  state : CBState
deriving DecidableEq

/-- `CircuitBreaker.__init__` (with its defaults `failure_threshold=5`,
`recovery_timeout=60.0` supplied by the caller). -/
def CircuitBreaker.init (thr : Nat) (rt : ℚ) : CircuitBreaker :=
  ⟨thr, rt, 0, none, CBState.Closed⟩

/-- `CircuitBreaker._is_recovery_timeout_reached`: `False` when no
failure time is recorded, otherwise `time.time() - last_failure_time >=
recovery_timeout` at the current instant `now`. -/
def CircuitBreaker.is_recovery_timeout_reached (cb : CircuitBreaker) (now : ℚ) : Bool :=
  match cb.last_failure_time with
  | none => false
  | some t => decide (cb.recovery_timeout ≤ now - t)

/-- What `CircuitBreaker.call` surfaces to the caller: the operation's
return value, the operation's re-raised error, or the
`Exception("Circuit breaker is OPEN")` fail-fast raise. -/
inductive CBOutcome (E α : Type) where
| ok (v : α)
| err (e : E)
| circuitOpen
deriving DecidableEq

/-- Result of one `CircuitBreaker.call`: the breaker's updated fields,
what was raised/returned, and whether the wrapped operation was
invoked. -/
structure CBCallResult (E α : Type) where
  cb : CircuitBreaker
  outcome : CBOutcome E α
  invoked : Bool
deriving DecidableEq

/-- `CircuitBreaker.call` at wall-clock instant `now`, where the wrapped
operation's behaviour (if it were invoked) is `op : Except E α`.
Mirrors the source: an Open breaker whose recovery timeout has not been
reached raises without invoking; an Open breaker past the timeout moves
to HalfOpen and proceeds; on success a HalfOpen breaker closes and the
failure count resets to 0; on failure the count increments, the failure
time is recorded, the state moves to Open when the count reaches
`failure_threshold`, and the error is re-raised. -/
def CircuitBreaker.call (cb : CircuitBreaker) (now : ℚ) (op : Except E α) : CBCallResult E α :=
  if cb.state = CBState.Open ∧ cb.is_recovery_timeout_reached now = false then
    ⟨cb, CBOutcome.circuitOpen, false⟩
  else
    let cb1 := if cb.state = CBState.Open then { cb with state := CBState.HalfOpen } else cb
    match op with
    | .ok v =>
      let cb2 := if cb1.state = CBState.HalfOpen then { cb1 with state := CBState.Closed } else cb1
      ⟨{ cb2 with failure_count := 0 }, CBOutcome.ok v, true⟩
    | .error e =>
      let cb2 := { cb1 with failure_count := cb1.failure_count + 1, last_failure_time := some now }
      let cb3 := if cb2.failure_threshold ≤ cb2.failure_count
        then { cb2 with state := CBState.Open } else cb2
      ⟨cb3, CBOutcome.err e, true⟩

example : ((CircuitBreaker.init 1 10).call 0 (Except.error 7 : Except Nat Nat)).cb =
    ⟨1, 10, 1, some 0, CBState.Open⟩ := by decide

/-- C2: `CircuitBreaker.call` implements the three-state lifecycle.
The breaker starts `Closed` with `failure_count = 0`; from `Closed` a
failure moves the state to `Open` exactly when the incremented
consecutive-failure count reaches `failure_threshold`; while `Open` and
before `recovery_timeout` has elapsed since the last recorded failure
at time `t`, `call` surfaces the circuit-open error without invoking the
wrapped operation and leaves the breaker unchanged; once
`recovery_timeout` has elapsed the next call invokes the operation (via
the transient `HalfOpen` state): success closes the circuit and resets
the failure count to 0, while failure re-records the failure time,
re-increments the count, and returns the circuit to `Open`.  The
hypothesis `failure_threshold ≤ failure_count` of the last part holds in
every reachable `Open` state (the count is reset only together with a
transition to `Closed`). -/
theorem circuit_breaker_lifecycle {E α : Type} (thr : Nat) (rt : ℚ)
    (cbC cbO : CircuitBreaker) (t now1 now2 : ℚ) (op : Except E α) (e : E) (v : α)
    (hC : cbC.state = CBState.Closed)
    (hO : cbO.state = CBState.Open)
    (hOl : cbO.last_failure_time = some t)
    (h1 : now1 - t < cbO.recovery_timeout)
    (h2 : cbO.recovery_timeout ≤ now2 - t)
    (hcnt : cbO.failure_threshold ≤ cbO.failure_count) :
    ((CircuitBreaker.init thr rt).state = CBState.Closed
      ∧ (CircuitBreaker.init thr rt).failure_count = 0
      ∧ (CircuitBreaker.init thr rt).last_failure_time = none)
  ∧ (((cbC.call now1 (Except.error e : Except E α)).cb.state = CBState.Open ↔
        cbC.failure_threshold ≤ cbC.failure_count + 1)
      ∧ (cbC.call now1 (Except.error e : Except E α)).cb.failure_count =
          cbC.failure_count + 1)
  ∧ ((cbO.call now1 op).outcome = CBOutcome.circuitOpen
      ∧ (cbO.call now1 op).invoked = false
      ∧ (cbO.call now1 op).cb = cbO)
  ∧ ((cbO.call now2 (Except.ok v : Except E α)).invoked = true
      ∧ (cbO.call now2 (Except.ok v : Except E α)).cb.state = CBState.Closed
      ∧ (cbO.call now2 (Except.ok v : Except E α)).cb.failure_count = 0)
  ∧ ((cbO.call now2 (Except.error e : Except E α)).invoked = true
      ∧ (cbO.call now2 (Except.error e : Except E α)).cb.state = CBState.Open
      ∧ (cbO.call now2 (Except.error e : Except E α)).cb.failure_count =
          cbO.failure_count + 1
      ∧ (cbO.call now2 (Except.error e : Except E α)).cb.last_failure_time = some now2) := by
  have hrec1 : cbO.is_recovery_timeout_reached now1 = false := by
    simp only [CircuitBreaker.is_recovery_timeout_reached, hOl, decide_eq_false_iff_not]
    exact not_le.mpr h1
  have hrec2 : cbO.is_recovery_timeout_reached now2 = true := by
    simp only [CircuitBreaker.is_recovery_timeout_reached, hOl, decide_eq_true_eq]
    exact h2
  refine ⟨⟨rfl, rfl, rfl⟩, ?_, ?_, ?_, ?_⟩
  · by_cases hth : cbC.failure_threshold ≤ cbC.failure_count + 1 <;>
      simp [CircuitBreaker.call, hC, hth]
  · simp [CircuitBreaker.call, hO, hrec1]
  · simp [CircuitBreaker.call, hO, hrec2]
  · have hth : cbO.failure_threshold ≤ cbO.failure_count + 1 := by omega
    simp [CircuitBreaker.call, hO, hrec2, hth]

/-- Witness for C2, with `failure_threshold = 2`, `recovery_timeout = 10`,
a closed breaker with zero failures, and an open breaker with two
failures last recorded at time 0, probed at times 0 (cooling) and 10
(timeout reached). -/
theorem circuit_breaker_lifecycle_witness :
    ((CircuitBreaker.init 2 10).state = CBState.Closed
      ∧ (CircuitBreaker.init 2 10).failure_count = 0
      ∧ (CircuitBreaker.init 2 10).last_failure_time = none)
  ∧ ((((CircuitBreaker.mk 2 10 0 none CBState.Closed).call 0
        (Except.error () : Except Unit Unit)).cb.state = CBState.Open ↔
        (CircuitBreaker.mk 2 10 0 none CBState.Closed).failure_threshold ≤
          (CircuitBreaker.mk 2 10 0 none CBState.Closed).failure_count + 1)
      ∧ ((CircuitBreaker.mk 2 10 0 none CBState.Closed).call 0
        (Except.error () : Except Unit Unit)).cb.failure_count =
          (CircuitBreaker.mk 2 10 0 none CBState.Closed).failure_count + 1)
  ∧ (((CircuitBreaker.mk 2 10 2 (some 0) CBState.Open).call 0
        (Except.ok () : Except Unit Unit)).outcome = CBOutcome.circuitOpen
      ∧ ((CircuitBreaker.mk 2 10 2 (some 0) CBState.Open).call 0
        (Except.ok () : Except Unit Unit)).invoked = false
      ∧ ((CircuitBreaker.mk 2 10 2 (some 0) CBState.Open).call 0
        (Except.ok () : Except Unit Unit)).cb = CircuitBreaker.mk 2 10 2 (some 0) CBState.Open)
  ∧ (((CircuitBreaker.mk 2 10 2 (some 0) CBState.Open).call 10
        (Except.ok () : Except Unit Unit)).invoked = true
      ∧ ((CircuitBreaker.mk 2 10 2 (some 0) CBState.Open).call 10
        (Except.ok () : Except Unit Unit)).cb.state = CBState.Closed
      ∧ ((CircuitBreaker.mk 2 10 2 (some 0) CBState.Open).call 10
        (Except.ok () : Except Unit Unit)).cb.failure_count = 0)
  ∧ (((CircuitBreaker.mk 2 10 2 (some 0) CBState.Open).call 10
        (Except.error () : Except Unit Unit)).invoked = true
      ∧ ((CircuitBreaker.mk 2 10 2 (some 0) CBState.Open).call 10
        (Except.error () : Except Unit Unit)).cb.state = CBState.Open
      ∧ ((CircuitBreaker.mk 2 10 2 (some 0) CBState.Open).call 10
        (Except.error () : Except Unit Unit)).cb.failure_count =
          (CircuitBreaker.mk 2 10 2 (some 0) CBState.Open).failure_count + 1
      ∧ ((CircuitBreaker.mk 2 10 2 (some 0) CBState.Open).call 10
        (Except.error () : Except Unit Unit)).cb.last_failure_time = some 10) := by
  have h := circuit_breaker_lifecycle 2 10 (CircuitBreaker.mk 2 10 0 none CBState.Closed)
    (CircuitBreaker.mk 2 10 2 (some 0) CBState.Open) 0 0 10 (Except.ok () : Except Unit Unit)
    () () rfl rfl rfl (by norm_num) (by norm_num) (le_refl 2)
  exact h

/-- Breaker states reachable from `CircuitBreaker.__init__` by any
sequence of `call`s.  The field evolution of `call` depends only on
whether the operation succeeded or failed, never on the returned value
or the raised error, so steps over `Except Unit Unit` cover every
operation. -/
inductive ReachableCB : CircuitBreaker → Prop where
| init (thr : Nat) (rt : ℚ) : ReachableCB (CircuitBreaker.init thr rt)
| step (cb : CircuitBreaker) (now : ℚ) (op : Except Unit Unit) :
    ReachableCB cb → ReachableCB ((cb.call now op).cb)

/-- C8: in every reachable breaker state, `state = 'OPEN'` implies
`last_failure_time` is not `None`; hence the recovery-timeout check made
while Open always compares against a real recorded failure timestamp,
and the `last_failure_time is None` branch of
`_is_recovery_timeout_reached` is unreachable while Open. -/
theorem reachable_open_has_failure_time (cb : CircuitBreaker) (hr : ReachableCB cb)
    (ho : cb.state = CBState.Open) : cb.last_failure_time ≠ none := by
  induction hr with
  | init thr rt => exact absurd ho (by simp [CircuitBreaker.init])
  | step cb now op hr ih =>
    by_cases hco : cb.state = CBState.Open ∧ cb.is_recovery_timeout_reached now = false
    · rw [CircuitBreaker.call, if_pos hco] at ho ⊢
      exact ih ho
    · rw [CircuitBreaker.call, if_neg hco] at ho ⊢
      rcases op with e | v
      · by_cases hopn : cb.state = CBState.Open <;>
          by_cases hth : cb.failure_threshold ≤ cb.failure_count + 1 <;>
            simp [hopn, hth]
      · exfalso
        revert ho
        rcases hsb : cb.state <;> simp [hsb]

/-- Witness for C8: the breaker obtained from a fresh
`CircuitBreaker(failure_threshold=1, recovery_timeout=10)` after one
failed call is reachable, Open, and has a recorded failure time. -/
theorem reachable_open_has_failure_time_witness :
    (((CircuitBreaker.init 1 10).call 0 (Except.error () : Except Unit Unit)).cb.state =
      CBState.Open)
  ∧ ((CircuitBreaker.init 1 10).call 0
      (Except.error () : Except Unit Unit)).cb.last_failure_time ≠ none :=
  ⟨by decide, reachable_open_has_failure_time _
    (ReachableCB.step _ 0 _ (ReachableCB.init 1 10)) (by decide)⟩

/-- Python exception values as observed by a caller of
`CircuitBreaker.call`: their class name and message. -/
structure PyExc where
  cls : String
  msg : String
deriving DecidableEq

/-- The exception object raised by
`raise Exception("Circuit breaker is OPEN")` (line 287 of
`retry_logic.py`): an instance of the base class `Exception`, not a
dedicated circuit-open type. -/
def circuit_open_error : PyExc := ⟨"Exception", "Circuit breaker is OPEN"⟩

/-- The exception a caller of `CircuitBreaker.call` catches, if any:
the fail-fast branch raises `circuit_open_error`, the failure branch
re-raises the operation's own error unchanged (`raise e`). -/
def raisedException : CBOutcome PyExc α → Option PyExc
| .circuitOpen => some circuit_open_error
| .err e => some e
| .ok _ => none

def cbOpenCooling : CircuitBreaker := ⟨5, 60, 5, some 0, CBState.Open⟩

/-- C7 counterexample: the fail-fast error raised while Open and cooling
down is NOT distinguishable from a genuine operation failure by
type/shape.  A closed breaker whose wrapped operation raises
`Exception("Circuit breaker is OPEN")` surfaces an exception equal (same
class, same message) to the one the open breaker `cbOpenCooling` raises
while cooling down. -/
theorem circuit_open_error_collision :
    raisedException ((CircuitBreaker.init 5 60).call 0
      (Except.error circuit_open_error : Except PyExc Unit)).outcome = some circuit_open_error
  ∧ raisedException (cbOpenCooling.call 0 (Except.ok () : Except PyExc Unit)).outcome =
      some circuit_open_error
  ∧ raisedException ((CircuitBreaker.init 5 60).call 0
      (Except.error circuit_open_error : Except PyExc Unit)).outcome =
    raisedException (cbOpenCooling.call 0 (Except.ok () : Except PyExc Unit)).outcome := by
  have hcool : cbOpenCooling.is_recovery_timeout_reached 0 = false := by
    simp only [CircuitBreaker.is_recovery_timeout_reached, cbOpenCooling,
      decide_eq_false_iff_not, not_le]
    norm_num
  have h2 : (cbOpenCooling.call 0 (Except.ok () : Except PyExc Unit)).outcome =
      CBOutcome.circuitOpen := by
    rw [CircuitBreaker.call, if_pos ⟨rfl, hcool⟩]
  refine ⟨?_, ?_, ?_⟩
  · simp [CircuitBreaker.call, CircuitBreaker.init, raisedException]
  · rw [h2]
    rfl
  · rw [h2]
    simp [CircuitBreaker.call, CircuitBreaker.init, raisedException]

/-- C7 (amended): the fail-fast error raised by `CircuitBreaker.call`
while the circuit is Open and cooling down is always the one fixed
generic exception — class `Exception`, message
`"Circuit breaker is OPEN"` — while a genuine failure of the wrapped
operation is re-raised unchanged; since an operation failure may itself
be a base `Exception` (even one with the very same message), the caller
cannot distinguish the two by type/shape, only — unreliably — by the
message string. -/
theorem circuit_open_error_shape (cb cbc : CircuitBreaker) (now : ℚ)
    (op : Except PyExc Unit) (e : PyExc)
    (hO : cb.state = CBState.Open)
    (hcool : cb.is_recovery_timeout_reached now = false)
    (hc : cbc.state = CBState.Closed) :
    raisedException (cb.call now op).outcome = some circuit_open_error
  ∧ circuit_open_error.cls = "Exception"
  ∧ raisedException (cbc.call now (Except.error e : Except PyExc Unit)).outcome = some e := by
  refine ⟨?_, rfl, ?_⟩
  · rw [CircuitBreaker.call, if_pos ⟨hO, hcool⟩]
    rfl
  · simp [CircuitBreaker.call, hc, raisedException]

/-- Witness for the amended C7: the open cooling breaker `cbOpenCooling`
probed at time 0 against a fresh closed breaker whose operation raises
`Exception("boom")`. -/
theorem circuit_open_error_shape_witness :
    raisedException (cbOpenCooling.call 0 (Except.ok () : Except PyExc Unit)).outcome =
      some circuit_open_error
  ∧ circuit_open_error.cls = "Exception"
  ∧ raisedException ((CircuitBreaker.init 5 60).call 0
      (Except.error ⟨"Exception", "boom"⟩ : Except PyExc Unit)).outcome =
      some ⟨"Exception", "boom"⟩ :=
  circuit_open_error_shape cbOpenCooling (CircuitBreaker.init 5 60) 0
    (Except.ok () : Except PyExc Unit) ⟨"Exception", "boom"⟩ rfl
    (by simp only [CircuitBreaker.is_recovery_timeout_reached, cbOpenCooling,
      decide_eq_false_iff_not, not_le]; norm_num) rfl

mutual
/-- Python values handled by `StateManager.save_state`. Mapping keys are
modelled as strings (the JSON-serializable case). -/
inductive PyVal where
| int (n : Int)
| float (q : ℚ)
| bool (b : Bool)
| str (s : String)
| pynone
| list (xs : PyList)
| tuple (xs : PyList)
| dict (kvs : PyDict)
/-- A Python list/tuple of values. -/
inductive PyList where
| nil
| cons (x : PyVal) (xs : PyList)
/-- A Python dict with string keys. -/
inductive PyDict where
| nil
| cons (k : String) (v : PyVal) (kvs : PyDict)
end

mutual
/-- JSON documents as produced by `json.dumps` and re-read by
`json.loads` (Python's json module distinguishes integers and floats). -/
inductive Json where
| jnull
| jbool (b : Bool)
| jint (n : Int)
| jfloat (q : ℚ)
| jstr (s : String)
| jarr (xs : JsonArr)
| jobj (kvs : JsonObj)
inductive JsonArr where
| nil
| cons (x : Json) (xs : JsonArr)
inductive JsonObj where
| nil
| cons (k : String) (v : Json) (kvs : JsonObj)
end

mutual
/-- `json.dumps` viewed structurally: the JSON document a Python value
serializes to.  Tuples serialize as JSON arrays, exactly like lists. -/
def py_to_json : PyVal → Json
| .int n => .jint n
| .float q => .jfloat q
| .bool b => .jbool b
| .str s => .jstr s
| .pynone => .jnull
| .list xs => .jarr (pyList_to_json xs)
| .tuple xs => .jarr (pyList_to_json xs)
| .dict kvs => .jobj (pyDict_to_json kvs)
def pyList_to_json : PyList → JsonArr
| .nil => .nil
| .cons x xs => .cons (py_to_json x) (pyList_to_json xs)
def pyDict_to_json : PyDict → JsonObj
| .nil => .nil
| .cons k v kvs => .cons k (py_to_json v) (pyDict_to_json kvs)
end

mutual
/-- `json.loads` viewed structurally: the Python value a JSON document
parses to.  JSON arrays always parse to lists, never tuples. -/
def json_to_py : Json → PyVal
| .jnull => .pynone
| .jbool b => .bool b
| .jint n => .int n
| .jfloat q => .float q
| .jstr s => .str s
| .jarr xs => .list (jsonArr_to_py xs)
| .jobj kvs => .dict (jsonObj_to_py kvs)
def jsonArr_to_py : JsonArr → PyList
| .nil => .nil
| .cons x xs => .cons (json_to_py x) (jsonArr_to_py xs)
def jsonObj_to_py : JsonObj → PyDict
| .nil => .nil
| .cons k v kvs => .cons k (json_to_py v) (jsonObj_to_py kvs)
end

mutual
/-- Whether a Python value contains no tuple anywhere (tuples are the
one JSON-serializable shape `json.loads ∘ json.dumps` does not restore). -/
def tuple_free : PyVal → Bool
| .tuple _ => false
| .list xs => tuple_free_list xs
| .dict kvs => tuple_free_dict kvs
| _ => true
def tuple_free_list : PyList → Bool
| .nil => true
| .cons x xs => tuple_free x && tuple_free_list xs
def tuple_free_dict : PyDict → Bool
| .nil => true
| .cons _ v kvs => tuple_free v && tuple_free_dict kvs
end

mutual
theorem json_round_trip : ∀ v : PyVal, tuple_free v = true → json_to_py (py_to_json v) = v
| .int _, _ => rfl
| .float _, _ => rfl
| .bool _, _ => rfl
| .str _, _ => rfl
| .pynone, _ => rfl
| .list xs, h => by
    rw [py_to_json, json_to_py, json_round_trip_list xs (by rwa [tuple_free] at h)]
| .tuple _, h => by rw [tuple_free] at h; exact absurd h (by simp)
| .dict kvs, h => by
    rw [py_to_json, json_to_py, json_round_trip_dict kvs (by rwa [tuple_free] at h)]
theorem json_round_trip_list : ∀ xs : PyList, tuple_free_list xs = true →
    jsonArr_to_py (pyList_to_json xs) = xs
| .nil, _ => rfl
| .cons x xs, h => by
    rw [tuple_free_list, Bool.and_eq_true] at h
    rw [pyList_to_json, jsonArr_to_py, json_round_trip x h.1, json_round_trip_list xs h.2]
theorem json_round_trip_dict : ∀ kvs : PyDict, tuple_free_dict kvs = true →
    jsonObj_to_py (pyDict_to_json kvs) = kvs
| .nil, _ => rfl
| .cons k v kvs, h => by
    rw [tuple_free_dict, Bool.and_eq_true] at h
    rw [pyDict_to_json, jsonObj_to_py, json_round_trip v h.1, json_round_trip_dict kvs h.2]
end

deriving instance DecidableEq for PyVal

mutual
/-- The JSON text `json.dumps` prints (naive quoting; only used for the
TEXT column contents, and never re-parsed by the claims below). -/
def json_dumps : Json → String
| .jnull => "null"
| .jbool b => if b then "true" else "false"
| .jint n => toString n
| .jfloat q => toString q
| .jstr s => "\"" ++ s ++ "\""
| .jarr xs => "[" ++ json_dumps_arr xs ++ "]"
| .jobj kvs => "\x7b" ++ json_dumps_obj kvs ++ "\x7d"
def json_dumps_arr : JsonArr → String
| .nil => ""
| .cons x .nil => json_dumps x
| .cons x xs => json_dumps x ++ ", " ++ json_dumps_arr xs
def json_dumps_obj : JsonObj → String
| .nil => ""
| .cons k v .nil => "\"" ++ k ++ "\": " ++ json_dumps v
| .cons k v kvs => "\"" ++ k ++ "\": " ++ json_dumps v ++ ", " ++ json_dumps_obj kvs
end

/-- The TEXT stored in the `value` column of `application_state`,
tracked by provenance: `str(value)` for scalars (`ofStr`, `ofInt`,
`ofFloat`, `ofBool`, `ofNone`) or `json.dumps(value)` for structured
values (`ofJson`).  The constructors record exactly the information
`load_state`'s parsers (`int()`, `float()`, `.lower() == 'true'`,
`json.loads`) recover from the text; `int(str(n)) = n`,
`float(str(f)) = f` (Python repr round-trip) and
`json.loads(json.dumps(j)) = j` are the standard-library facts this
representation encodes. -/
inductive StoredText where
| ofStr (s : String)
| ofInt (n : Int)
| ofFloat (q : ℚ)
| ofBool (b : Bool)
| ofNone
| ofJson (j : Json)

/-- The literal text of a stored value (`str(value)` / `json.dumps`). -/
def StoredText.text : StoredText → String
| .ofStr s => s
| .ofInt n => toString n
| .ofFloat q => toString q
| .ofBool b => if b then "True" else "False"
| .ofNone => "None"
| .ofJson j => json_dumps j

/-- Python `str.lower`, character-wise (ASCII suffices here). -/
def str_lower (s : String) : String := ⟨s.data.map Char.toLower⟩

/-- The `(data_type, serialized_value)` pair computed by
`StateManager.save_state`: `data_type = type(value).__name__`, then
dict/list/tuple values are re-tagged `'json'` and serialized with
`json.dumps`, everything else is stored as `str(value)`. -/
def serialize_state : PyVal → String × StoredText
| .dict kvs => ("json", .ofJson (py_to_json (.dict kvs)))
| .list xs => ("json", .ofJson (py_to_json (.list xs)))
| .tuple xs => ("json", .ofJson (py_to_json (.tuple xs)))
| .int n => ("int", .ofInt n)
| .float q => ("float", .ofFloat q)
| .bool b => ("bool", .ofBool b)
| .str s => ("str", .ofStr s)
| .pynone => ("NoneType", .ofNone)

/-- The deserialization dispatch of `StateManager.load_state`: by stored
`data_type`, `'json'` → `json.loads`, `'int'` → `int(value)`,
`'float'` → `float(value)`, `'bool'` → `value.lower() == 'true'`,
anything else → the raw TEXT itself.  A parser applied to a text it
cannot parse raises, and `load_state` catches every exception and
returns `default` — those combinations never arise from `save_state`,
which always writes a matching pair. -/
def deserialize_state (data_type : String) (value : StoredText) (default : PyVal) : PyVal :=
  if data_type = "json" then
    match value with
    | .ofJson j => json_to_py j
    | _ => default
  else if data_type = "int" then
    match value with
    | .ofInt n => .int n
    | _ => default
  else if data_type = "float" then
    match value with
    | .ofFloat q => .float q
    | _ => default
  else if data_type = "bool" then
    .bool (str_lower value.text == "true")
  else
    .str value.text

/-- One row of the `application_state` table (`key UNIQUE, value,
data_type`). -/
structure AppStateRow where
  key : String
  value : StoredText
  data_type : String

/-- `StateManager.save_state`: `INSERT OR REPLACE` keyed by the unique
`key` column, modelled as replacing any row with that key. -/
def save_state (db : List AppStateRow) (key : String) (v : PyVal) : List AppStateRow :=
  ⟨key, (serialize_state v).2, (serialize_state v).1⟩ :: db.filter (fun r => r.key != key)

/-- `StateManager.load_state`: select the row by key, return `default`
when absent, otherwise deserialize by the stored type tag. -/
def load_state (db : List AppStateRow) (key : String) (default : PyVal) : PyVal :=
  match db.find? (fun r => r.key == key) with
  | some r => deserialize_state r.data_type r.value default
  | none => default

theorem load_after_save (db : List AppStateRow) (key : String) (v d : PyVal) :
    load_state (save_state db key v) key d =
      deserialize_state (serialize_state v).1 (serialize_state v).2 d := by
  simp [load_state, save_state, List.find?]

/-- C3: for every key and every value that is an int, float, bool,
string, or a JSON-serializable mapping/sequence (a dict or list built of
the supported values, containing no tuple — tuples are the coerced case
of C10 — and not the scalar `None`, which is outside the claimed set),
`save_state` followed by `load_state` on the same key returns a value
equal to the one saved: the stored type tag suffices to reconstruct the
original type. -/
theorem save_load_state_roundtrip (db : List AppStateRow) (key : String) (v d : PyVal)
    (hv : tuple_free v = true) (hn : v ≠ PyVal.pynone) :
    load_state (save_state db key v) key d = v := by
  rw [load_after_save]
  cases v with
  | int n => simp [serialize_state, deserialize_state]
  | float q => simp [serialize_state, deserialize_state]
  | bool b =>
    cases b <;> simp [serialize_state, deserialize_state, StoredText.text, str_lower]
  | str s => simp [serialize_state, deserialize_state, StoredText.text]
  | pynone => exact absurd rfl hn
  | list xs =>
    simp only [serialize_state, deserialize_state, if_pos]
    rw [json_round_trip _ hv]
  | tuple xs => rw [tuple_free] at hv; exact absurd hv (by simp)
  | dict kvs =>
    simp only [serialize_state, deserialize_state, if_pos]
    rw [json_round_trip _ hv]

/-- Witness for C3: a dict holding an int, and a list of a bool, a
string, a float and a nested `None`, survives the round-trip. -/
theorem save_load_state_roundtrip_witness :
    load_state (save_state [] "k"
      (PyVal.dict (PyDict.cons "a" (PyVal.int 1) (PyDict.cons "b"
        (PyVal.list (PyList.cons (PyVal.bool true) (PyList.cons (PyVal.str "x")
          (PyList.cons (PyVal.float 3) (PyList.cons PyVal.pynone PyList.nil)))))
        PyDict.nil)))) "k" PyVal.pynone =
      PyVal.dict (PyDict.cons "a" (PyVal.int 1) (PyDict.cons "b"
        (PyVal.list (PyList.cons (PyVal.bool true) (PyList.cons (PyVal.str "x")
          (PyList.cons (PyVal.float 3) (PyList.cons PyVal.pynone PyList.nil)))))
        PyDict.nil)) :=
  save_load_state_roundtrip [] "k" _ PyVal.pynone (by decide) (fun h => PyVal.noConfusion h)

/-- C10 counterexample: the tuple `((),)` (a tuple whose sole element is
the empty tuple) does not round-trip to "the list with the same
elements": the value loaded back is `[[]]`, whose element `[]` is a
list, not the original tuple element `()`. -/
theorem save_load_state_tuple_cex :
    load_state (save_state [] "k"
      (PyVal.tuple (PyList.cons (PyVal.tuple PyList.nil) PyList.nil))) "k" PyVal.pynone =
      PyVal.list (PyList.cons (PyVal.list PyList.nil) PyList.nil)
  ∧ PyVal.list (PyList.cons (PyVal.list PyList.nil) PyList.nil) ≠
      PyVal.list (PyList.cons (PyVal.tuple PyList.nil) PyList.nil) := by
  constructor
  · decide
  · decide

/-- C10 (amended): a tuple value round-trips through
`save_state`/`load_state` to the *list* whose elements are themselves
recursively round-tripped — equal to the original elements exactly when
they contain no tuples — and `None` round-trips to the string `"None"`
(its `str()` text, stored under the unparsed tag `'NoneType'`): values
outside the supported type set are coerced rather than restored. -/
theorem save_load_state_tuple_and_none (db : List AppStateRow) (key : String) (xs : PyList)
    (d : PyVal) (hxs : tuple_free_list xs = true) :
    load_state (save_state db key (PyVal.tuple xs)) key d = PyVal.list xs
  ∧ load_state (save_state db key PyVal.pynone) key d = PyVal.str "None" := by
  constructor
  · rw [load_after_save]
    simp only [serialize_state, deserialize_state, if_pos, py_to_json, json_to_py]
    rw [json_round_trip_list _ hxs]
  · rw [load_after_save]
    simp [serialize_state, deserialize_state, StoredText.text]

/-- Witness for the amended C10 at the tuple `(1, "x")` and at `None`. -/
theorem save_load_state_tuple_and_none_witness :
    load_state (save_state [] "k"
      (PyVal.tuple (PyList.cons (PyVal.int 1) (PyList.cons (PyVal.str "x") PyList.nil))))
      "k" PyVal.pynone =
      PyVal.list (PyList.cons (PyVal.int 1) (PyList.cons (PyVal.str "x") PyList.nil))
  ∧ load_state (save_state [] "k" PyVal.pynone) "k" PyVal.pynone = PyVal.str "None" :=
  save_load_state_tuple_and_none [] "k"
    (PyList.cons (PyVal.int 1) (PyList.cons (PyVal.str "x") PyList.nil)) PyVal.pynone (by decide)

/-- One row of the `job_search_state` table (`search_id UNIQUE, query,
results (nullable TEXT), status, error_count, last_error`). -/
structure JobSearchRow where
  search_id : String
  query : String
  results : Option Json
  status : String
  error_count : Int
  last_error : Option String

/-- `StateManager.save_job_search_state`:
`results_json = json.dumps(results) if results else None` — both `None`
and the (falsy) empty list store SQL NULL — then `INSERT OR REPLACE`
keyed by `search_id`. -/
def save_job_search_state (db : List JobSearchRow) (search_id query : String)
    (results : Option PyList) (status : String) (error_count : Int)
    (last_error : Option String) : List JobSearchRow :=
  let results_json : Option Json :=
    match results with
    | none => none
    | some PyList.nil => none
    | some xs => some (Json.jarr (pyList_to_json xs))
  ⟨search_id, query, results_json, status, error_count, last_error⟩ ::
    db.filter (fun r => r.search_id != search_id)

/-- The dict returned by `StateManager.load_job_search_state`. -/
structure LoadedJobSearch where
  search_id : String
  query : String
  results : Option PyVal
  status : String
  error_count : Int
  last_error : Option String

/-- `StateManager.load_job_search_state`: select by `search_id`, return
`None` when absent; `if state['results']:` parses the results TEXT only
when it is truthy (non-NULL — a stored JSON array text is never the
empty string), leaving `None` in place otherwise. -/
def load_job_search_state (db : List JobSearchRow) (search_id : String) :
    Option LoadedJobSearch :=
  match db.find? (fun r => r.search_id == search_id) with
  | none => none
  | some r => some ⟨r.search_id, r.query,
      (match r.results with
       | none => none
       | some j => some (json_to_py j)), r.status, r.error_count, r.last_error⟩

/-- C9: saving a job search with `results = []` stores NULL in the
`results` column — the stored row is identical to one saved with no
results at all — so the subsequently loaded record carries
`results = None` rather than the empty list: an empty result list is
indistinguishable from results never having been saved. -/
theorem empty_results_saved_as_null (db : List JobSearchRow) (sid q st : String)
    (ec : Int) (le : Option String) :
    load_job_search_state (save_job_search_state db sid q (some PyList.nil) st ec le) sid =
      some ⟨sid, q, none, st, ec, le⟩
  ∧ save_job_search_state db sid q (some PyList.nil) st ec le =
      save_job_search_state db sid q none st ec le := by
  constructor
  · simp [save_job_search_state, load_job_search_state, List.find?]
  · rfl
